import Mathlib

/-!
Shallow embedding of the traffic intersection simulation in
`self_designed_env/new_env.py` (classes `Vehicle`, `TrafficMetricsCollector`,
`TrafficSimulation`).

Representation choices:
* Coordinates and speeds are stored in tenths of a unit, as integers (`ℤ`).
  Every constant of the source (`1.5`, `2.5`, `0.1`, `0.3`, the thresholds
  `10`, `30`, `60`, the lane offsets and snap points) is an exact multiple of
  `0.1`, and the kinematics only ever add, subtract, `min`/`max` and compare
  such values, so the scaled integer model is an exact image of the
  real-valued source arithmetic.  A source constant `c` appears here as `10*c`.
* Aggregate metric samples (means, throughput ratios) are rationals (`ℚ`).
* The pseudo-random draw `random.random() < prob` made once per lane per
  tick by `spawn_vehicles` is modelled by a boolean oracle giving the
  outcome of that comparison; the configured probabilities themselves are
  kept in the state (they only feed the external RNG comparison).
-/

namespace NewEnv

inductive Direction
  | north | south | east | west
deriving DecidableEq, Repr

inductive LaneType
  | straight | left
deriving DecidableEq, Repr

open Direction LaneType

/-- The vehicle record (`Vehicle.__init__`).  Coordinates and speeds in
tenths of a unit. -/
structure Vehicle where
  id : ℕ
  direction : Direction
  lane_type : LaneType
  x : ℤ
  y : ℤ
  prev_x : ℤ
  prev_y : ℤ
  spawn_time : ℕ
  waiting_time : ℕ
  passed : Bool
  has_turned : Bool
  collided : Bool
  in_intersection_zone : Bool
  speed : ℤ
  max_speed : ℤ
  acceleration : ℤ
  deceleration : ℤ
deriving DecidableEq, Repr

/-- `Vehicle.set_initial_position`: the spawn coordinate for a
(direction, lane_type) pair, in tenths. -/
def set_initial_position (direction : Direction) (lane_type : LaneType) : ℤ × ℤ :=
  match direction, lane_type with
  | north, straight => (-70, -800)
  | north, left => (-200, -800)
  | south, straight => (70, 800)
  | south, left => (200, 800)
  | east, straight => (-800, -70)
  | east, left => (-800, -200)
  | west, straight => (800, 70)
  | west, left => (800, 200)

/-- `Vehicle.__init__`: initial speed 1.5, max speed 2.5, acceleration 0.1,
deceleration 0.3 (all in tenths); previous position initialised to the spawn
position. -/
def Vehicle.init (vehicle_id : ℕ) (direction : Direction) (lane_type : LaneType)
    (spawn_time : ℕ) : Vehicle :=
  let p := set_initial_position direction lane_type
  { id := vehicle_id
    direction := direction
    lane_type := lane_type
    x := p.1
    y := p.2
    prev_x := p.1
    prev_y := p.2
    spawn_time := spawn_time
    waiting_time := 0
    passed := false
    has_turned := false
    collided := false
    in_intersection_zone := false
    speed := 15
    max_speed := 25
    acceleration := 1
    deceleration := 3 }

/-- `Vehicle.approaching_intersection`. -/
def Vehicle.approaching_intersection (v : Vehicle) : Bool :=
  match v.direction with
  | north => decide (v.y < -100)
  | south => decide (v.y > 100)
  | east => decide (v.x < -100)
  | west => decide (v.x > 100)

/-- `Vehicle.in_intersection`. -/
def Vehicle.in_intersection (v : Vehicle) : Bool :=
  decide (|v.x| ≤ 300 ∧ |v.y| ≤ 300)

/-- `Vehicle.should_wait`: phase-gated right of way.  The phase is an
arbitrary integer, as in the source. -/
def Vehicle.should_wait (v : Vehicle) (current_phase : ℤ) : Bool :=
  if v.approaching_intersection = false then false
  else if current_phase = 0 then
    !(decide ((v.direction = north ∨ v.direction = south) ∧ v.lane_type = straight))
  else if current_phase = 1 then
    !(decide ((v.direction = east ∨ v.direction = west) ∧ v.lane_type = straight))
  else if current_phase = 2 then
    !(decide ((v.direction = north ∨ v.direction = south) ∧ v.lane_type = left))
  else if current_phase = 3 then
    !(decide ((v.direction = east ∨ v.direction = west) ∧ v.lane_type = left))
  else true

/-- `Vehicle._should_turn_left_now`: the instantaneous-turn trigger
(tolerances 4 units on the lane offset, 6 units along the travel axis,
inside the 30-unit box). -/
def Vehicle.should_turn_left_now (v : Vehicle) : Bool :=
  if v.lane_type ≠ left ∨ v.has_turned then false
  else if !(decide (|v.x| ≤ 300 ∧ |v.y| ≤ 300)) then false
  else
    match v.direction with
    | north => decide (|v.x + 200| < 40 ∧ v.y ≥ -60)
    | south => decide (|v.x - 200| < 40 ∧ v.y ≤ 60)
    | east => decide (|v.y + 200| < 40 ∧ v.x ≥ -60)
    | west => decide (|v.y - 200| < 40 ∧ v.x ≤ 60)

/-- `Vehicle._turn_left`: snap to the fixed post-turn coordinate and rotate
the heading 90 degrees. -/
def Vehicle.turn_left (v : Vehicle) : Vehicle :=
  match v.direction with
  | north => { v with direction := west, x := -50, y := 200, has_turned := true }
  | south => { v with direction := east, x := 50, y := -200, has_turned := true }
  | east => { v with direction := north, x := -200, y := -50, has_turned := true }
  | west => { v with direction := south, x := 200, y := 50, has_turned := true }

/-- `Vehicle.move`: advance along the travel axis, then record the (new)
position as the previous position, exactly as the source does. -/
def Vehicle.move (v : Vehicle) : Vehicle :=
  let v' :=
    match v.direction with
    | north => { v with y := v.y + v.speed }
    | south => { v with y := v.y - v.speed }
    | east => { v with x := v.x + v.speed }
    | west => { v with x := v.x - v.speed }
  { v' with prev_x := v'.x, prev_y := v'.y }

/-- `Vehicle.check_passed`: set the terminal flag beyond the ±60-unit line. -/
def Vehicle.check_passed (v : Vehicle) : Vehicle :=
  match v.direction with
  | north => if v.y > 600 then { v with passed := true } else v
  | south => if v.y < -600 then { v with passed := true } else v
  | east => if v.x > 600 then { v with passed := true } else v
  | west => if v.x < -600 then { v with passed := true } else v

/-- `Vehicle.update`: the per-tick transition.  `intersection_clear` is
accepted and ignored, as in the source. -/
def Vehicle.update (v : Vehicle) (current_phase : ℤ)
    (_intersection_clear : Bool) : Vehicle :=
  if v.passed ∨ v.collided then v
  else
    let v1 := { v with in_intersection_zone := v.in_intersection }
    let sw := v1.should_wait current_phase
    let v2 :=
      if sw then
        if v1.approaching_intersection then
          { v1 with speed := max 0 (v1.speed - v1.deceleration),
                    waiting_time := v1.waiting_time + 1 }
        else
          { v1 with speed := min v1.max_speed (v1.speed + v1.acceleration) }
      else
        { v1 with speed := min v1.max_speed (v1.speed + v1.acceleration) }
    let v3 := if !sw && v2.should_turn_left_now then v2.turn_left else v2
    (v3.move).check_passed

/-- The per-vehicle snapshot record forwarded to the metrics collector
(`TrafficSimulation.collect_metrics` builds one per active vehicle). -/
structure VehicleData where
  x : ℤ
  y : ℤ
  direction : Direction
  lane_type : LaneType
  waiting_time : ℕ
  speed : ℤ
  passed : Bool
deriving DecidableEq, Repr

/-- `TrafficMetricsCollector.is_in_waiting_zone`: the 15–40-unit band before
the intersection on the approach axis. -/
def is_in_waiting_zone (vd : VehicleData) : Bool :=
  match vd.direction with
  | north => decide (-400 < vd.y ∧ vd.y < -150)
  | south => decide (150 < vd.y ∧ vd.y < 400)
  | east => decide (-400 < vd.x ∧ vd.x < -150)
  | west => decide (150 < vd.x ∧ vd.x < 400)

/-- Append to a deque of maximum length 100: the oldest samples are evicted
once the window is full. -/
def pushWindow (l : List ℕ) (n : ℕ) : List ℕ :=
  let l' := l ++ [n]
  if l'.length > 100 then l'.drop (l'.length - 100) else l'

/-- The eight per-lane queue-length windows (`queue_lengths` dictionary). -/
structure QueueWindows where
  north_straight : List ℕ
  north_left : List ℕ
  south_straight : List ℕ
  south_left : List ℕ
  east_straight : List ℕ
  east_left : List ℕ
  west_straight : List ℕ
  west_left : List ℕ
deriving DecidableEq, Repr

/-- Look up the window of one lane key. -/
def QueueWindows.get (q : QueueWindows) (d : Direction) (lt : LaneType) : List ℕ :=
  match d, lt with
  | north, straight => q.north_straight
  | north, left => q.north_left
  | south, straight => q.south_straight
  | south, left => q.south_left
  | east, straight => q.east_straight
  | east, left => q.east_left
  | west, straight => q.west_straight
  | west, left => q.west_left

/-- Append this tick's count to every lane's window. -/
def QueueWindows.pushAll (q : QueueWindows) (count : Direction → LaneType → ℕ) :
    QueueWindows :=
  { north_straight := pushWindow q.north_straight (count north straight)
    north_left := pushWindow q.north_left (count north left)
    south_straight := pushWindow q.south_straight (count south straight)
    south_left := pushWindow q.south_left (count south left)
    east_straight := pushWindow q.east_straight (count east straight)
    east_left := pushWindow q.east_left (count east left)
    west_straight := pushWindow q.west_straight (count west straight)
    west_left := pushWindow q.west_left (count west left) }

/-- The empty windows built by `TrafficMetricsCollector.reset`. -/
def QueueWindows.empty : QueueWindows :=
  { north_straight := [], north_left := [], south_straight := [], south_left := []
    east_straight := [], east_left := [], west_straight := [], west_left := [] }

/-- Mean of a list of rationals (`np.mean`). -/
def listMean (l : List ℚ) : ℚ := l.sum / l.length

structure TrafficMetricsCollector where
  waiting_times : List ℚ
  throughputs : List ℚ
  queue_lengths : QueueWindows
  total_passed_vehicles : ℕ
  collision_count : ℕ
  total_steps : ℕ
deriving DecidableEq, Repr

/-- `TrafficMetricsCollector.reset` assigns construction-time values to every
field; `__init__` just calls it, so the reset result is a constant. -/
def TrafficMetricsCollector.reset (_m : TrafficMetricsCollector) :
    TrafficMetricsCollector :=
  { waiting_times := []
    throughputs := []
    queue_lengths := QueueWindows.empty
    total_passed_vehicles := 0
    collision_count := 0
    total_steps := 0 }

/-- The freshly constructed collector (`TrafficMetricsCollector.__init__`). -/
def TrafficMetricsCollector.initial : TrafficMetricsCollector :=
  TrafficMetricsCollector.reset
    { waiting_times := []
      throughputs := []
      queue_lengths := QueueWindows.empty
      total_passed_vehicles := 0
      collision_count := 0
      total_steps := 0 }

/-- `TrafficMetricsCollector.update_metrics`. -/
def TrafficMetricsCollector.update_metrics (m : TrafficMetricsCollector)
    (vehicles_info : List VehicleData) (_current_phase : ℤ) (current_step : ℕ)
    (_passed_this_step : ℕ) (total_passed : ℕ) : TrafficMetricsCollector :=
  let active := vehicles_info.filter (fun vd => !vd.passed)
  let current_waiting_times := active.map (fun vd => (vd.waiting_time : ℚ))
  let queueCount := fun (d : Direction) (lt : LaneType) =>
    (active.filter (fun vd => decide (vd.speed < 5) && is_in_waiting_zone vd
      && decide (vd.direction = d) && decide (vd.lane_type = lt))).length
  { m with
    total_steps := current_step
    total_passed_vehicles := total_passed
    queue_lengths := m.queue_lengths.pushAll queueCount
    waiting_times := m.waiting_times ++
      [if current_waiting_times.length = 0 then 0 else listMean current_waiting_times]
    throughputs :=
      if current_step > 0 then
        m.throughputs ++ [(total_passed : ℚ) / (current_step : ℚ)]
      else m.throughputs }

/-- The summary record returned by `TrafficMetricsCollector.get_metrics`. -/
structure Metrics where
  average_waiting_time : ℚ
  queue_length_means : Direction → LaneType → ℚ
  throughput : ℚ
  total_vehicles_passed : ℕ
  current_vehicles : ℕ

/-- `TrafficMetricsCollector.get_metrics`. -/
def TrafficMetricsCollector.get_metrics (m : TrafficMetricsCollector) : Metrics :=
  { average_waiting_time :=
      if m.waiting_times.length = 0 then 0 else listMean m.waiting_times
    queue_length_means := fun d lt =>
      if (m.queue_lengths.get d lt).length = 0 then 0
      else ((m.queue_lengths.get d lt).map (fun n => (n : ℚ))).sum
        / ((m.queue_lengths.get d lt).length : ℚ)
    throughput := (m.throughputs.getLast?).getD 0
    total_vehicles_passed := m.total_passed_vehicles
    current_vehicles := m.waiting_times.length }

/-- Outcomes of the per-lane Bernoulli draws `random.random() < prob` made
during one spawn pass. -/
def SpawnOracle := Direction → LaneType → Bool

/-- The spawn-probability table built by `TrafficSimulation.__init__`. -/
def default_spawn_probabilities (d : Direction) (lt : LaneType) : ℚ :=
  match d, lt with
  | north, straight => 4/100
  | north, left => 3/100
  | south, straight => 4/100
  | south, left => 3/100
  | east, straight => 4/100
  | east, left => 3/100
  | west, straight => 4/100
  | west, left => 3/100

structure TrafficSimulation where
  vehicles : List Vehicle
  next_vehicle_id : ℕ
  current_step : ℕ
  metrics_collector : TrafficMetricsCollector
  spawn_probabilities : Direction → LaneType → ℚ
  total_passed_vehicles : ℕ

/-- `TrafficSimulation.__init__`. -/
def TrafficSimulation.init : TrafficSimulation :=
  { vehicles := []
    next_vehicle_id := 0
    current_step := 0
    metrics_collector := TrafficMetricsCollector.initial
    spawn_probabilities := default_spawn_probabilities
    total_passed_vehicles := 0 }

/-- `TrafficSimulation.reset`. -/
def TrafficSimulation.reset (s : TrafficSimulation) : TrafficSimulation :=
  { s with
    vehicles := []
    next_vehicle_id := 0
    current_step := 0
    total_passed_vehicles := 0
    metrics_collector := s.metrics_collector.reset }

/-- The iteration order of the spawn loop: directions north, south, east,
west; lane types straight, left. -/
def laneOrder : List (Direction × LaneType) :=
  [(north, straight), (north, left), (south, straight), (south, left),
   (east, straight), (east, left), (west, straight), (west, left)]

/-- The number of active (non-passed, non-collided) vehicles of one lane,
as counted by the back-pressure check in `spawn_vehicles`. -/
def TrafficSimulation.laneCount (s : TrafficSimulation) (d : Direction)
    (lt : LaneType) : ℕ :=
  (s.vehicles.filter (fun v => decide (v.direction = d) && decide (v.lane_type = lt)
    && !v.passed && !v.collided)).length

/-- `TrafficSimulation.add_vehicle`. -/
def TrafficSimulation.add_vehicle (s : TrafficSimulation) (d : Direction)
    (lt : LaneType) : TrafficSimulation :=
  { s with
    vehicles := s.vehicles ++ [Vehicle.init s.next_vehicle_id d lt s.current_step]
    next_vehicle_id := s.next_vehicle_id + 1 }

/-- One lane's portion of the spawn pass. -/
def spawnLane (draws : SpawnOracle) (s : TrafficSimulation)
    (p : Direction × LaneType) : TrafficSimulation :=
  if draws p.1 p.2 then
    if s.laneCount p.1 p.2 < 4 then s.add_vehicle p.1 p.2 else s
  else s

/-- `TrafficSimulation.spawn_vehicles`: one Bernoulli-gated, capacity-gated
spawn attempt per lane, in `laneOrder`. -/
def TrafficSimulation.spawn_vehicles (s : TrafficSimulation)
    (draws : SpawnOracle) : TrafficSimulation :=
  laneOrder.foldl (spawnLane draws) s

/-- `Vehicle` snapshot taken by `TrafficSimulation.collect_metrics`. -/
def Vehicle.data (v : Vehicle) : VehicleData :=
  { x := v.x
    y := v.y
    direction := v.direction
    lane_type := v.lane_type
    waiting_time := v.waiting_time
    speed := v.speed
    passed := v.passed }

/-- `TrafficSimulation.collect_metrics`. -/
def TrafficSimulation.collect_metrics (s : TrafficSimulation)
    (current_phase : ℤ) (passed_this_step : ℕ) : TrafficSimulation :=
  { s with
    metrics_collector := s.metrics_collector.update_metrics
      (s.vehicles.map Vehicle.data) current_phase s.current_step
      passed_this_step s.total_passed_vehicles }

/-- The state immediately after the spawn phase of a step: the tick counter
has been advanced and the spawn pass run — the first two actions of
`TrafficSimulation.step`. -/
def TrafficSimulation.afterSpawnPhase (s : TrafficSimulation)
    (draws : SpawnOracle) : TrafficSimulation :=
  ({ s with current_step := s.current_step + 1 }).spawn_vehicles draws

/-- `TrafficSimulation.step`: advance the tick counter, spawn, update every
vehicle (`intersection_clear` always true), remove the vehicles whose
`passed` flag is set, account them, and collect metrics. -/
def TrafficSimulation.step (s : TrafficSimulation) (current_phase : ℤ)
    (draws : SpawnOracle) : TrafficSimulation :=
  let s2 := s.afterSpawnPhase draws
  let updated := s2.vehicles.map (fun v => v.update current_phase true)
  let passed_count := (updated.filter (fun v => v.passed)).length
  let s3 := { s2 with
    vehicles := updated.filter (fun v => !v.passed)
    total_passed_vehicles := s2.total_passed_vehicles + passed_count }
  s3.collect_metrics current_phase passed_count

/-- The number of vehicles whose `passed` flag becomes true during one call
to `step` (every vehicle present after the spawn phase is unpassed in any
reachable state, so "is passed after its update" means "became passed"). -/
def TrafficSimulation.passedDuringStep (s : TrafficSimulation) (current_phase : ℤ)
    (draws : SpawnOracle) : ℕ :=
  (((s.afterSpawnPhase draws).vehicles.map
      (fun v => v.update current_phase true)).filter (fun v => v.passed)).length

/-- `TrafficSimulation.get_observation`. -/
def TrafficSimulation.get_observation (s : TrafficSimulation) : List Vehicle :=
  s.vehicles

/-- `TrafficSimulation.get_metrics`. -/
def TrafficSimulation.get_metrics (s : TrafficSimulation) : Metrics :=
  s.metrics_collector.get_metrics

/-- Run a schedule of steps (one phase and one set of draw outcomes per
tick). -/
def TrafficSimulation.run (s : TrafficSimulation)
    (schedule : List (ℤ × SpawnOracle)) : TrafficSimulation :=
  schedule.foldl (fun s pr => s.step pr.1 pr.2) s

/-- States reachable through the public interface: construction, `step`,
`reset`. -/
inductive Reachable : TrafficSimulation → Prop
  | init : Reachable TrafficSimulation.init
  | step (s : TrafficSimulation) (phase : ℤ) (draws : SpawnOracle) :
      Reachable s → Reachable (s.step phase draws)
  | reset (s : TrafficSimulation) : Reachable s → Reachable s.reset

/-! ### Basic lemmas about the vehicle transition -/

lemma Vehicle.turn_left_id (v : Vehicle) : (v.turn_left).id = v.id := by
  cases h : v.direction <;> simp [Vehicle.turn_left, h]

lemma Vehicle.turn_left_lane_type (v : Vehicle) : (v.turn_left).lane_type = v.lane_type := by
  cases h : v.direction <;> simp [Vehicle.turn_left, h]

lemma Vehicle.turn_left_waiting_time (v : Vehicle) :
    (v.turn_left).waiting_time = v.waiting_time := by
  cases h : v.direction <;> simp [Vehicle.turn_left, h]

lemma Vehicle.turn_left_speed (v : Vehicle) : (v.turn_left).speed = v.speed := by
  cases h : v.direction <;> simp [Vehicle.turn_left, h]

lemma Vehicle.turn_left_max_speed (v : Vehicle) : (v.turn_left).max_speed = v.max_speed := by
  cases h : v.direction <;> simp [Vehicle.turn_left, h]

lemma Vehicle.turn_left_acceleration (v : Vehicle) :
    (v.turn_left).acceleration = v.acceleration := by
  cases h : v.direction <;> simp [Vehicle.turn_left, h]

lemma Vehicle.turn_left_deceleration (v : Vehicle) :
    (v.turn_left).deceleration = v.deceleration := by
  cases h : v.direction <;> simp [Vehicle.turn_left, h]

lemma Vehicle.turn_left_passed (v : Vehicle) : (v.turn_left).passed = v.passed := by
  cases h : v.direction <;> simp [Vehicle.turn_left, h]

lemma Vehicle.turn_left_collided (v : Vehicle) : (v.turn_left).collided = v.collided := by
  cases h : v.direction <;> simp [Vehicle.turn_left, h]

lemma Vehicle.turn_left_has_turned (v : Vehicle) : (v.turn_left).has_turned = true := by
  cases h : v.direction <;> simp [Vehicle.turn_left, h]

lemma Vehicle.move_id (v : Vehicle) : (v.move).id = v.id := by
  cases h : v.direction <;> simp [Vehicle.move, h]

lemma Vehicle.move_lane_type (v : Vehicle) : (v.move).lane_type = v.lane_type := by
  cases h : v.direction <;> simp [Vehicle.move, h]

lemma Vehicle.move_direction (v : Vehicle) : (v.move).direction = v.direction := by
  cases h : v.direction <;> simp [Vehicle.move, h]

lemma Vehicle.move_waiting_time (v : Vehicle) : (v.move).waiting_time = v.waiting_time := by
  cases h : v.direction <;> simp [Vehicle.move, h]

lemma Vehicle.move_speed (v : Vehicle) : (v.move).speed = v.speed := by
  cases h : v.direction <;> simp [Vehicle.move, h]

lemma Vehicle.move_max_speed (v : Vehicle) : (v.move).max_speed = v.max_speed := by
  cases h : v.direction <;> simp [Vehicle.move, h]

lemma Vehicle.move_acceleration (v : Vehicle) : (v.move).acceleration = v.acceleration := by
  cases h : v.direction <;> simp [Vehicle.move, h]

lemma Vehicle.move_deceleration (v : Vehicle) : (v.move).deceleration = v.deceleration := by
  cases h : v.direction <;> simp [Vehicle.move, h]

lemma Vehicle.move_passed (v : Vehicle) : (v.move).passed = v.passed := by
  cases h : v.direction <;> simp [Vehicle.move, h]

lemma Vehicle.move_collided (v : Vehicle) : (v.move).collided = v.collided := by
  cases h : v.direction <;> simp [Vehicle.move, h]

lemma Vehicle.move_has_turned (v : Vehicle) : (v.move).has_turned = v.has_turned := by
  cases h : v.direction <;> simp [Vehicle.move, h]

lemma Vehicle.check_passed_id (v : Vehicle) : (v.check_passed).id = v.id := by
  cases h : v.direction <;> simp only [Vehicle.check_passed, h] <;> split <;> rfl

lemma Vehicle.check_passed_lane_type (v : Vehicle) :
    (v.check_passed).lane_type = v.lane_type := by
  cases h : v.direction <;> simp only [Vehicle.check_passed, h] <;> split <;> rfl

lemma Vehicle.check_passed_direction (v : Vehicle) :
    (v.check_passed).direction = v.direction := by
  cases h : v.direction <;> simp only [Vehicle.check_passed, h] <;> split <;> (first | rfl | simp [h])

lemma Vehicle.check_passed_x (v : Vehicle) : (v.check_passed).x = v.x := by
  cases h : v.direction <;> simp only [Vehicle.check_passed, h] <;> split <;> rfl

lemma Vehicle.check_passed_y (v : Vehicle) : (v.check_passed).y = v.y := by
  cases h : v.direction <;> simp only [Vehicle.check_passed, h] <;> split <;> rfl

lemma Vehicle.check_passed_waiting_time (v : Vehicle) :
    (v.check_passed).waiting_time = v.waiting_time := by
  cases h : v.direction <;> simp only [Vehicle.check_passed, h] <;> split <;> rfl

lemma Vehicle.check_passed_speed (v : Vehicle) : (v.check_passed).speed = v.speed := by
  cases h : v.direction <;> simp only [Vehicle.check_passed, h] <;> split <;> rfl

lemma Vehicle.check_passed_max_speed (v : Vehicle) :
    (v.check_passed).max_speed = v.max_speed := by
  cases h : v.direction <;> simp only [Vehicle.check_passed, h] <;> split <;> rfl

lemma Vehicle.check_passed_acceleration (v : Vehicle) :
    (v.check_passed).acceleration = v.acceleration := by
  cases h : v.direction <;> simp only [Vehicle.check_passed, h] <;> split <;> rfl

lemma Vehicle.check_passed_deceleration (v : Vehicle) :
    (v.check_passed).deceleration = v.deceleration := by
  cases h : v.direction <;> simp only [Vehicle.check_passed, h] <;> split <;> rfl

lemma Vehicle.check_passed_has_turned (v : Vehicle) :
    (v.check_passed).has_turned = v.has_turned := by
  cases h : v.direction <;> simp only [Vehicle.check_passed, h] <;> split <;> rfl

lemma Vehicle.check_passed_collided (v : Vehicle) :
    (v.check_passed).collided = v.collided := by
  cases h : v.direction <;> simp only [Vehicle.check_passed, h] <;> split <;> rfl

/-- Fields other than `in_intersection_zone` determine `should_wait`. -/
lemma Vehicle.should_wait_zone (v : Vehicle) (b : Bool) (p : ℤ) :
    ({ v with in_intersection_zone := b } : Vehicle).should_wait p = v.should_wait p := rfl

lemma Vehicle.approaching_zone (v : Vehicle) (b : Bool) :
    ({ v with in_intersection_zone := b } : Vehicle).approaching_intersection
      = v.approaching_intersection := rfl

lemma Vehicle.should_turn_irrel (v : Vehicle) (b : Bool) (s' : ℤ) (w' : ℕ) :
    ({ v with in_intersection_zone := b, speed := s', waiting_time := w' } : Vehicle).should_turn_left_now
      = v.should_turn_left_now := rfl

/-- `should_wait` can only be true inside the approach zone: the first guard
of the source returns `False` outside it. -/
lemma Vehicle.should_wait_approaching (v : Vehicle) (p : ℤ)
    (h : v.should_wait p = true) : v.approaching_intersection = true := by
  unfold Vehicle.should_wait at h
  split at h
  · exact absurd h (by simp)
  · rename_i h2; simpa using h2

/-- A terminal (`passed` or `collided`) vehicle is not mutated. -/
lemma Vehicle.update_terminal (v : Vehicle) (p : ℤ) (c : Bool)
    (h : v.passed = true ∨ v.collided = true) : v.update p c = v := by
  rcases h with h | h <;> simp [Vehicle.update, h]

/-- Unfolding of `update` for an active vehicle.  Uses the fact that
`should_wait = true` forces `approaching_intersection = true`, so the
"waiting but far away" acceleration branch of the source is dead. -/
lemma Vehicle.update_active (v : Vehicle) (p : ℤ) (c : Bool)
    (hp : v.passed = false) (hc : v.collided = false) :
    v.update p c =
      (((if v.should_wait p then
          { v with in_intersection_zone := v.in_intersection,
                   speed := max 0 (v.speed - v.deceleration),
                   waiting_time := v.waiting_time + 1 }
        else if v.should_turn_left_now then
          ({ v with in_intersection_zone := v.in_intersection,
                    speed := min v.max_speed (v.speed + v.acceleration) }).turn_left
        else
          { v with in_intersection_zone := v.in_intersection,
                   speed := min v.max_speed (v.speed + v.acceleration) }).move).check_passed) := by
  unfold Vehicle.update
  rw [if_neg (by simp [hp, hc])]
  by_cases hsw : v.should_wait p
  · have ha := Vehicle.should_wait_approaching v p hsw
    simp only [Vehicle.should_wait_zone, Vehicle.approaching_zone, Vehicle.should_turn_irrel,
      hsw, ha, if_true, Bool.not_true, Bool.false_and, Bool.false_eq_true, if_false]
  · simp only [Vehicle.should_wait_zone, Vehicle.approaching_zone, Vehicle.should_turn_irrel,
      hsw, Bool.not_false, Bool.true_and, if_false, Bool.false_eq_true]

/-- A positive turn trigger implies a left-lane vehicle that has not yet
turned. -/
lemma Vehicle.should_turn_elim (v : Vehicle) (h : v.should_turn_left_now = true) :
    v.lane_type = left ∧ v.has_turned = false := by
  unfold Vehicle.should_turn_left_now at h
  split at h
  · exact absurd h (by simp)
  · rename_i h2
    push_neg at h2
    exact ⟨h2.1, by simpa using h2.2⟩

lemma Vehicle.update_id (v : Vehicle) (p : ℤ) (c : Bool) : (v.update p c).id = v.id := by
  by_cases h : v.passed = true ∨ v.collided = true
  · rw [Vehicle.update_terminal v p c h]
  · obtain ⟨hp, hc⟩ : v.passed = false ∧ v.collided = false := by simpa [not_or] using h
    rw [Vehicle.update_active v p c hp hc]
    split
    · simp [Vehicle.check_passed_id, Vehicle.move_id]
    · split <;> simp [Vehicle.check_passed_id, Vehicle.move_id, Vehicle.turn_left_id]

lemma Vehicle.update_lane_type (v : Vehicle) (p : ℤ) (c : Bool) :
    (v.update p c).lane_type = v.lane_type := by
  by_cases h : v.passed = true ∨ v.collided = true
  · rw [Vehicle.update_terminal v p c h]
  · obtain ⟨hp, hc⟩ : v.passed = false ∧ v.collided = false := by simpa [not_or] using h
    rw [Vehicle.update_active v p c hp hc]
    split
    · simp [Vehicle.check_passed_lane_type, Vehicle.move_lane_type]
    · split <;>
        simp [Vehicle.check_passed_lane_type, Vehicle.move_lane_type, Vehicle.turn_left_lane_type]

lemma Vehicle.update_max_speed (v : Vehicle) (p : ℤ) (c : Bool) :
    (v.update p c).max_speed = v.max_speed := by
  by_cases h : v.passed = true ∨ v.collided = true
  · rw [Vehicle.update_terminal v p c h]
  · obtain ⟨hp, hc⟩ : v.passed = false ∧ v.collided = false := by simpa [not_or] using h
    rw [Vehicle.update_active v p c hp hc]
    split
    · simp [Vehicle.check_passed_max_speed, Vehicle.move_max_speed]
    · split <;>
        simp [Vehicle.check_passed_max_speed, Vehicle.move_max_speed, Vehicle.turn_left_max_speed]

lemma Vehicle.update_acceleration (v : Vehicle) (p : ℤ) (c : Bool) :
    (v.update p c).acceleration = v.acceleration := by
  by_cases h : v.passed = true ∨ v.collided = true
  · rw [Vehicle.update_terminal v p c h]
  · obtain ⟨hp, hc⟩ : v.passed = false ∧ v.collided = false := by simpa [not_or] using h
    rw [Vehicle.update_active v p c hp hc]
    split
    · simp [Vehicle.check_passed_acceleration, Vehicle.move_acceleration]
    · split <;>
        simp [Vehicle.check_passed_acceleration, Vehicle.move_acceleration,
          Vehicle.turn_left_acceleration]

lemma Vehicle.update_deceleration (v : Vehicle) (p : ℤ) (c : Bool) :
    (v.update p c).deceleration = v.deceleration := by
  by_cases h : v.passed = true ∨ v.collided = true
  · rw [Vehicle.update_terminal v p c h]
  · obtain ⟨hp, hc⟩ : v.passed = false ∧ v.collided = false := by simpa [not_or] using h
    rw [Vehicle.update_active v p c hp hc]
    split
    · simp [Vehicle.check_passed_deceleration, Vehicle.move_deceleration]
    · split <;>
        simp [Vehicle.check_passed_deceleration, Vehicle.move_deceleration,
          Vehicle.turn_left_deceleration]

/-- Speed after an active update: decelerate (floored at 0) when waiting,
else accelerate (capped at `max_speed`). -/
lemma Vehicle.update_speed (v : Vehicle) (p : ℤ) (c : Bool)
    (hp : v.passed = false) (hc : v.collided = false) :
    (v.update p c).speed =
      if v.should_wait p = true then max 0 (v.speed - v.deceleration)
      else min v.max_speed (v.speed + v.acceleration) := by
  rw [Vehicle.update_active v p c hp hc]
  by_cases hsw : v.should_wait p = true
  · simp [hsw, Vehicle.check_passed_speed, Vehicle.move_speed]
  · simp only [hsw, Bool.false_eq_true, if_false]
    split <;> simp [Vehicle.check_passed_speed, Vehicle.move_speed, Vehicle.turn_left_speed]

/-- Waiting time after an active update: incremented exactly when waiting. -/
lemma Vehicle.update_waiting_time (v : Vehicle) (p : ℤ) (c : Bool)
    (hp : v.passed = false) (hc : v.collided = false) :
    (v.update p c).waiting_time =
      if v.should_wait p = true then v.waiting_time + 1 else v.waiting_time := by
  rw [Vehicle.update_active v p c hp hc]
  by_cases hsw : v.should_wait p = true
  · simp [hsw, Vehicle.check_passed_waiting_time, Vehicle.move_waiting_time]
  · simp only [hsw, Bool.false_eq_true, if_false]
    split <;>
      simp [Vehicle.check_passed_waiting_time, Vehicle.move_waiting_time,
        Vehicle.turn_left_waiting_time]

/-- `has_turned` is monotone along `update`. -/
lemma Vehicle.update_has_turned_mono (v : Vehicle) (p : ℤ) (c : Bool)
    (h : v.has_turned = true) : (v.update p c).has_turned = true := by
  by_cases ht : v.passed = true ∨ v.collided = true
  · rw [Vehicle.update_terminal v p c ht]; exact h
  · obtain ⟨hp, hc⟩ : v.passed = false ∧ v.collided = false := by simpa [not_or] using ht
    rw [Vehicle.update_active v p c hp hc]
    split
    · simpa [Vehicle.check_passed_has_turned, Vehicle.move_has_turned] using h
    · split <;>
        simp [Vehicle.check_passed_has_turned, Vehicle.move_has_turned,
          Vehicle.turn_left_has_turned, h]

/-- `has_turned` can only become true through the left-turn branch, which
requires a left-lane vehicle. -/
lemma Vehicle.update_has_turned_source (v : Vehicle) (p : ℤ) (c : Bool)
    (h : (v.update p c).has_turned = true) :
    v.has_turned = true ∨ v.lane_type = left := by
  by_cases ht : v.passed = true ∨ v.collided = true
  · rw [Vehicle.update_terminal v p c ht] at h; exact Or.inl h
  · obtain ⟨hp, hc⟩ : v.passed = false ∧ v.collided = false := by simpa [not_or] using ht
    rw [Vehicle.update_active v p c hp hc] at h
    rcases Decidable.em (v.should_wait p = true) with hsw | hsw
    · rw [if_pos hsw] at h
      simp only [Vehicle.check_passed_has_turned, Vehicle.move_has_turned] at h
      exact Or.inl (by simpa using h)
    · rw [if_neg hsw] at h
      rcases Decidable.em (v.should_turn_left_now = true) with htn | htn
      · exact Or.inr (Vehicle.should_turn_elim v htn).1
      · rw [if_neg htn] at h
        simp only [Vehicle.check_passed_has_turned, Vehicle.move_has_turned] at h
        exact Or.inl (by simpa using h)

/-- `update` keeps the speed inside `[0, max_speed]` whenever the kinematic
constants are nonnegative. -/
lemma Vehicle.update_preserves_speed_clamp (v : Vehicle) (p : ℤ) (c : Bool)
    (h0 : 0 ≤ v.speed) (hm : v.speed ≤ v.max_speed)
    (ha : 0 ≤ v.acceleration) (hd : 0 ≤ v.deceleration) :
    0 ≤ (v.update p c).speed ∧ (v.update p c).speed ≤ (v.update p c).max_speed := by
  by_cases hterm : v.passed = true ∨ v.collided = true
  · rw [Vehicle.update_terminal v p c hterm]; exact ⟨h0, hm⟩
  · obtain ⟨hp, hc⟩ : v.passed = false ∧ v.collided = false := by simpa [not_or] using hterm
    rw [Vehicle.update_max_speed, Vehicle.update_speed v p c hp hc]
    split
    · exact ⟨le_max_left 0 _, max_le (le_trans h0 hm) (by linarith)⟩
    · exact ⟨le_min (le_trans h0 hm) (by linarith), min_le_left _ _⟩

/-! ### Claim C4 -/

/-- C4: in the approach zone, `should_wait(phase)` is `False` exactly when
the vehicle's (direction, lane_type) matches the phase class (0: NS straight,
1: EW straight, 2: NS left, 3: EW left); every phase outside {0,1,2,3} makes
an approaching vehicle wait; outside the approach zone `should_wait` is
always `False`. -/
theorem C4_should_wait_table (v : Vehicle) (phase : ℤ) :
    (v.approaching_intersection = true →
      ((v.should_wait phase = false) ↔
        ((phase = 0 ∧ (v.direction = north ∨ v.direction = south) ∧ v.lane_type = straight)
       ∨ (phase = 1 ∧ (v.direction = east ∨ v.direction = west) ∧ v.lane_type = straight)
       ∨ (phase = 2 ∧ (v.direction = north ∨ v.direction = south) ∧ v.lane_type = left)
       ∨ (phase = 3 ∧ (v.direction = east ∨ v.direction = west) ∧ v.lane_type = left))))
  ∧ ((phase ≠ 0 ∧ phase ≠ 1 ∧ phase ≠ 2 ∧ phase ≠ 3) →
      v.approaching_intersection = true → v.should_wait phase = true)
  ∧ (v.approaching_intersection = false → v.should_wait phase = false) := by
  refine ⟨fun ha => ?_, fun hph ha => ?_, fun ha => ?_⟩
  · cases hd : v.direction <;> cases hl : v.lane_type <;>
      by_cases p0 : phase = 0 <;> by_cases p1 : phase = 1 <;>
      by_cases p2 : phase = 2 <;> by_cases p3 : phase = 3 <;>
      simp_all [Vehicle.should_wait]
  · obtain ⟨h0, h1, h2, h3⟩ := hph
    simp [Vehicle.should_wait, ha, h0, h1, h2, h3]
  · simp [Vehicle.should_wait, ha]

/-- Witness for C4 at a concrete vehicle: a fresh north straight vehicle is
in the approach zone; it proceeds under phase 0 and waits under phase 5. -/
theorem C4_witness :
    (Vehicle.init 0 north straight 0).should_wait 0 = false
  ∧ (Vehicle.init 0 north straight 0).should_wait 5 = true := by
  have h0 := C4_should_wait_table (Vehicle.init 0 north straight 0) 0
  have h5 := C4_should_wait_table (Vehicle.init 0 north straight 0) 5
  exact ⟨(h0.1 (by decide)).mpr (Or.inl ⟨rfl, Or.inl rfl, rfl⟩),
    h5.2.1 (by decide) (by decide)⟩

/-! ### Claim C5 -/

/-- C5: the speed invariant `0 ≤ speed ≤ max_speed` holds at construction
and is preserved by every `update` (the kinematic constants of constructed
vehicles are nonnegative). -/
theorem C5_speed_clamped :
    (∀ (i t : ℕ) (d : Direction) (lt : LaneType),
        0 ≤ (Vehicle.init i d lt t).speed
      ∧ (Vehicle.init i d lt t).speed ≤ (Vehicle.init i d lt t).max_speed
      ∧ 0 ≤ (Vehicle.init i d lt t).acceleration
      ∧ 0 ≤ (Vehicle.init i d lt t).deceleration)
  ∧ (∀ (v : Vehicle) (p : ℤ) (c : Bool),
      0 ≤ v.speed → v.speed ≤ v.max_speed →
      0 ≤ v.acceleration → 0 ≤ v.deceleration →
        0 ≤ (v.update p c).speed ∧ (v.update p c).speed ≤ (v.update p c).max_speed) := by
  refine ⟨fun i t d lt => ⟨by norm_num [Vehicle.init], by norm_num [Vehicle.init],
    by norm_num [Vehicle.init], by norm_num [Vehicle.init]⟩,
    fun v p c h0 hm ha hd => Vehicle.update_preserves_speed_clamp v p c h0 hm ha hd⟩

/-- Witness for C5: one concrete update preserves the clamp. -/
theorem C5_witness :
    0 ≤ ((Vehicle.init 0 north straight 0).update 1 true).speed
  ∧ ((Vehicle.init 0 north straight 0).update 1 true).speed
      ≤ ((Vehicle.init 0 north straight 0).update 1 true).max_speed :=
  C5_speed_clamped.2 (Vehicle.init 0 north straight 0) 1 true
    (by decide) (by decide) (by decide) (by decide)

/-! ### Claim C7 -/

/-- C7: `has_turned` starts false, only ever transitions false→true (hence
at most once), the lane type never changes, and `has_turned` can only be (or
become) true for a left-lane vehicle. -/
theorem C7_has_turned_monotone :
    (∀ (i t : ℕ) (d : Direction) (lt : LaneType),
        (Vehicle.init i d lt t).has_turned = false)
  ∧ (∀ (v : Vehicle) (p : ℤ) (c : Bool),
      ((v.update p c).lane_type = v.lane_type)
    ∧ (v.has_turned = true → (v.update p c).has_turned = true)
    ∧ ((v.update p c).has_turned = true → v.has_turned = true ∨ v.lane_type = left)
    ∧ ((v.has_turned = true → v.lane_type = left) →
        (v.update p c).has_turned = true → (v.update p c).lane_type = left)) := by
  refine ⟨fun i t d lt => by simp [Vehicle.init], fun v p c =>
    ⟨Vehicle.update_lane_type v p c, Vehicle.update_has_turned_mono v p c,
     Vehicle.update_has_turned_source v p c, fun hinv hup => ?_⟩⟩
  rw [Vehicle.update_lane_type]
  rcases Vehicle.update_has_turned_source v p c hup with h | h
  · exact hinv h
  · exact h

/-- A left-lane vehicle that has already turned, used as witness input. -/
def vC7 : Vehicle := { Vehicle.init 0 north left 0 with has_turned := true }

/-- Witness for C7: updating an already-turned left vehicle keeps
`has_turned` true and its lane type unchanged. -/
theorem C7_witness :
    (vC7.update 0 true).has_turned = true ∧ (vC7.update 0 true).lane_type = vC7.lane_type :=
  ⟨(C7_has_turned_monotone.2 vC7 0 true).2.1 rfl, (C7_has_turned_monotone.2 vC7 0 true).1⟩

/-! ### Claim C3 -/

/-- C3 (amended): whenever `should_wait` is true for an active vehicle — at
whatever distance — the update decelerates by `deceleration` floored at 0 and
increments `waiting_time`; moreover `should_wait` is only ever true on the
approach side, so the source's accelerate-when-waiting-but-far branch is
unreachable. -/
theorem C3_wait_always_decelerates (v : Vehicle) (p : ℤ) (c : Bool)
    (hp : v.passed = false) (hc : v.collided = false)
    (hw : v.should_wait p = true) :
    v.approaching_intersection = true
  ∧ (v.update p c).speed = max 0 (v.speed - v.deceleration)
  ∧ (v.update p c).waiting_time = v.waiting_time + 1 :=
  ⟨Vehicle.should_wait_approaching v p hw,
   by rw [Vehicle.update_speed v p c hp hc, if_pos hw],
   by rw [Vehicle.update_waiting_time v p c hp hc, if_pos hw]⟩

/-- A freshly spawned north straight vehicle: 80 units from the center, far
outside any 10-unit band around the intersection boundary. -/
def vC3 : Vehicle := Vehicle.init 0 north straight 0

/-- Counterexample to C3 as stated: under the unfavorable phase 1 this
vehicle at `y = -80` (tenths: `-800`) — not within 10 units of the
intersection boundary — still decelerates and accrues waiting time instead
of accelerating toward `max_speed`. -/
theorem C3_counterexample :
    vC3.direction = north ∧ vC3.y = -800
  ∧ vC3.should_wait 1 = true
  ∧ (vC3.update 1 true).speed = max 0 (vC3.speed - vC3.deceleration)
  ∧ (vC3.update 1 true).speed ≠ min vC3.max_speed (vC3.speed + vC3.acceleration)
  ∧ (vC3.update 1 true).waiting_time = vC3.waiting_time + 1 := by
  refine ⟨rfl, rfl, by decide, by decide, by decide, by decide⟩

/-- Witness for C3 (amended) at a concrete waiting vehicle. -/
theorem C3_witness :
    (Vehicle.init 1 south straight 0).approaching_intersection = true
  ∧ ((Vehicle.init 1 south straight 0).update 1 true).speed
      = max 0 ((Vehicle.init 1 south straight 0).speed
          - (Vehicle.init 1 south straight 0).deceleration)
  ∧ ((Vehicle.init 1 south straight 0).update 1 true).waiting_time
      = (Vehicle.init 1 south straight 0).waiting_time + 1 :=
  C3_wait_always_decelerates (Vehicle.init 1 south straight 0) 1 true
    (by decide) (by decide) (by decide)

/-! ### Claim C8 -/

/-- C8: a throughput sample `total_passed / current_step` is appended exactly
when `current_step > 0` (no division at step 0), and `get_metrics` reports 0
with no samples and the most recent sample otherwise. -/
theorem C8_throughput_guard (m : TrafficMetricsCollector) (info : List VehicleData)
    (phase : ℤ) (current_step ptc tp : ℕ) :
    (0 < current_step →
      (m.update_metrics info phase current_step ptc tp).throughputs
        = m.throughputs ++ [(tp : ℚ) / (current_step : ℚ)])
  ∧ (current_step = 0 →
      (m.update_metrics info phase current_step ptc tp).throughputs = m.throughputs)
  ∧ (m.throughputs = [] → m.get_metrics.throughput = 0)
  ∧ (∀ (q : ℚ) (l : List ℚ), m.throughputs = l ++ [q] → m.get_metrics.throughput = q) := by
  refine ⟨fun hpos => ?_, fun hz => ?_, fun he => ?_, fun q l hl => ?_⟩
  · simp [TrafficMetricsCollector.update_metrics, hpos]
  · subst hz; simp [TrafficMetricsCollector.update_metrics]
  · simp [TrafficMetricsCollector.get_metrics, he]
  · simp [TrafficMetricsCollector.get_metrics, hl]

/-- Witness for C8: one concrete guarded update and one concrete lookup. -/
theorem C8_witness :
    (TrafficMetricsCollector.initial.update_metrics [] 0 5 0 10).throughputs
      = TrafficMetricsCollector.initial.throughputs ++ [((10 : ℕ) : ℚ) / ((5 : ℕ) : ℚ)]
  ∧ (TrafficMetricsCollector.initial.update_metrics [] 0 0 0 10).throughputs
      = TrafficMetricsCollector.initial.throughputs
  ∧ TrafficMetricsCollector.initial.get_metrics.throughput = 0 := by
  refine ⟨(C8_throughput_guard TrafficMetricsCollector.initial [] 0 5 0 10).1 (by decide),
    (C8_throughput_guard TrafficMetricsCollector.initial [] 0 0 0 10).2.1 rfl,
    (C8_throughput_guard TrafficMetricsCollector.initial [] 0 0 0 10).2.2.1 rfl⟩

/-! ### Claim C2 -/

/-- A snapshot holding three active (non-passed) vehicles. -/
def c2info : List VehicleData :=
  [{ x := -70, y := -300, direction := north, lane_type := straight,
     waiting_time := 0, speed := 15, passed := false },
   { x := 70, y := 300, direction := south, lane_type := straight,
     waiting_time := 2, speed := 10, passed := false },
   { x := -300, y := -70, direction := east, lane_type := straight,
     waiting_time := 1, speed := 0, passed := false }]

/-- C2 fails on the code: after two `update_metrics` ticks whose latest
snapshot holds three active vehicles, `get_metrics` reports
`current_vehicles = 2` — the number of recorded per-tick waiting-time
samples, not the active-vehicle count of the most recent snapshot. -/
theorem C2_current_vehicles_bug :
    ((TrafficMetricsCollector.initial.update_metrics c2info 0 1 0
        0).update_metrics c2info 0 2 0 0).get_metrics.current_vehicles = 2
  ∧ (c2info.filter (fun vd => !vd.passed)).length = 3 := by
  constructor <;> rfl

/-! ### Claim C9 -/

lemma spawnLane_spawn_probabilities (draws : SpawnOracle) (s : TrafficSimulation)
    (pr : Direction × LaneType) :
    (spawnLane draws s pr).spawn_probabilities = s.spawn_probabilities := by
  unfold spawnLane TrafficSimulation.add_vehicle
  split
  · split <;> rfl
  · rfl

lemma spawn_fold_spawn_probabilities (draws : SpawnOracle)
    (lanes : List (Direction × LaneType)) :
    ∀ s : TrafficSimulation,
      (List.foldl (spawnLane draws) s lanes).spawn_probabilities
        = s.spawn_probabilities := by
  induction lanes with
  | nil => intro s; rfl
  | cons a t ih =>
      intro s
      rw [List.foldl_cons, ih, spawnLane_spawn_probabilities]

lemma TrafficSimulation.step_spawn_probabilities (s : TrafficSimulation)
    (phase : ℤ) (draws : SpawnOracle) :
    (s.step phase draws).spawn_probabilities = s.spawn_probabilities := by
  unfold TrafficSimulation.step
  simp only [TrafficSimulation.collect_metrics, TrafficSimulation.spawn_vehicles]
  exact spawn_fold_spawn_probabilities draws laneOrder _

/-- C9: from any reachable state, `reset()` yields exactly the freshly
constructed simulation: empty vehicle map, zero counters, and a metrics
collector restored to construction-time values. -/
theorem C9_reset_restores (s : TrafficSimulation) (h : Reachable s) :
    s.reset = TrafficSimulation.init := by
  have hp : s.spawn_probabilities = default_spawn_probabilities := by
    induction h with
    | init => rfl
    | step s phase draws hr ih => rw [TrafficSimulation.step_spawn_probabilities]; exact ih
    | reset s hr ih => exact ih
  cases s
  simp_all [TrafficSimulation.reset, TrafficSimulation.init,
    TrafficMetricsCollector.reset, TrafficMetricsCollector.initial]

/-- Witness for C9 at the freshly constructed simulation. -/
theorem C9_witness : TrafficSimulation.init.reset = TrafficSimulation.init :=
  C9_reset_restores TrafficSimulation.init Reachable.init

/-! ### Claim C10 -/

/-- The vehicle sits on the outbound side of its travel axis: past (or at)
the snapped post-turn coordinate, moving away from the approach zone of its
current direction. -/
def inOutboundHalf (v : Vehicle) : Prop :=
  match v.direction with
  | north => -50 ≤ v.y
  | south => v.y ≤ 50
  | east => 50 ≤ v.x
  | west => v.x ≤ -50

/-- State reached right after an executed left turn (and preserved ever
after): outbound position together with the standing kinematic bounds. -/
def PostTurnState (v : Vehicle) : Prop :=
  0 ≤ v.speed ∧ v.speed ≤ v.max_speed ∧ 0 ≤ v.acceleration ∧ 0 ≤ v.deceleration ∧
    inOutboundHalf v

lemma turn_left_outbound (v : Vehicle) : inOutboundHalf v.turn_left := by
  cases hd : v.direction <;> simp [inOutboundHalf, Vehicle.turn_left, hd]

lemma move_outbound (v : Vehicle) (hs : 0 ≤ v.speed) (h : inOutboundHalf v) :
    inOutboundHalf v.move := by
  cases hd : v.direction <;>
    simp only [inOutboundHalf, Vehicle.move, hd] at h ⊢ <;> omega

lemma check_passed_outbound (v : Vehicle) (h : inOutboundHalf v) :
    inOutboundHalf v.check_passed := by
  unfold inOutboundHalf at h ⊢
  rw [Vehicle.check_passed_direction, Vehicle.check_passed_x, Vehicle.check_passed_y]
  exact h

lemma outbound_not_approaching (v : Vehicle) (h : inOutboundHalf v) :
    v.approaching_intersection = false := by
  cases hd : v.direction <;>
    simp only [inOutboundHalf, hd] at h <;>
    simp [Vehicle.approaching_intersection, hd] <;> omega

lemma should_wait_of_not_approaching (v : Vehicle) (p : ℤ)
    (h : v.approaching_intersection = false) : v.should_wait p = false := by
  simp [Vehicle.should_wait, h]

lemma postTurn_update (v : Vehicle) (p : ℤ) (c : Bool) (h : PostTurnState v) :
    PostTurnState (v.update p c) ∧ (v.update p c).waiting_time = v.waiting_time := by
  obtain ⟨h0, hm, hacc, hdec, hpos⟩ := h
  have hclamp := Vehicle.update_preserves_speed_clamp v p c h0 hm hacc hdec
  by_cases hterm : v.passed = true ∨ v.collided = true
  · rw [Vehicle.update_terminal v p c hterm]
    exact ⟨⟨h0, hm, hacc, hdec, hpos⟩, rfl⟩
  · obtain ⟨hp, hc⟩ : v.passed = false ∧ v.collided = false := by simpa [not_or] using hterm
    have hsw : v.should_wait p = false :=
      should_wait_of_not_approaching v p (outbound_not_approaching v hpos)
    refine ⟨⟨hclamp.1, hclamp.2, ?_, ?_, ?_⟩, ?_⟩
    · rw [Vehicle.update_acceleration]; exact hacc
    · rw [Vehicle.update_deceleration]; exact hdec
    · rw [Vehicle.update_active v p c hp hc, if_neg (by simp [hsw])]
      set w : Vehicle :=
        { v with in_intersection_zone := v.in_intersection,
                 speed := min v.max_speed (v.speed + v.acceleration) } with hw
      have hws : 0 ≤ w.speed := le_min (le_trans h0 hm) (by linarith)
      have hwo : inOutboundHalf w := hpos
      split
      · exact check_passed_outbound _ (move_outbound _ (by
          rw [Vehicle.turn_left_speed]; exact hws) (turn_left_outbound w))
      · exact check_passed_outbound _ (move_outbound _ hws hwo)
    · rw [Vehicle.update_waiting_time v p c hp hc, if_neg (by simp [hsw])]

/-- C10: an executed left turn snaps the vehicle outside the approach zone of
its new direction; from that state `approaching_intersection` is false and
`should_wait` is false for every phase, on that tick and every later one, and
`waiting_time` never increases again. -/
theorem C10_post_turn (v : Vehicle) (phase : ℤ) (c : Bool) :
    ((v.turn_left).approaching_intersection = false)
  ∧ (v.passed = false → v.collided = false → v.should_wait phase = false →
      v.should_turn_left_now = true → 0 ≤ v.speed → v.speed ≤ v.max_speed →
      0 ≤ v.acceleration → 0 ≤ v.deceleration →
      PostTurnState (v.update phase c))
  ∧ (PostTurnState v → v.approaching_intersection = false)
  ∧ (PostTurnState v → v.should_wait phase = false)
  ∧ (PostTurnState v →
      PostTurnState (v.update phase c) ∧ (v.update phase c).waiting_time = v.waiting_time) := by
  refine ⟨outbound_not_approaching _ (turn_left_outbound v),
    fun hp hc hsw htn h0 hm hacc hdec => ?_,
    fun h => outbound_not_approaching v h.2.2.2.2,
    fun h => should_wait_of_not_approaching v phase (outbound_not_approaching v h.2.2.2.2),
    fun h => postTurn_update v phase c h⟩
  have hclamp := Vehicle.update_preserves_speed_clamp v phase c h0 hm hacc hdec
  refine ⟨hclamp.1, hclamp.2, ?_, ?_, ?_⟩
  · rw [Vehicle.update_acceleration]; exact hacc
  · rw [Vehicle.update_deceleration]; exact hdec
  · rw [Vehicle.update_active v phase c hp hc, if_neg (by simp [hsw]), if_pos htn]
    set w : Vehicle :=
      { v with in_intersection_zone := v.in_intersection,
               speed := min v.max_speed (v.speed + v.acceleration) } with hw
    have hws : 0 ≤ w.speed := le_min (le_trans h0 hm) (by linarith)
    exact check_passed_outbound _ (move_outbound _ (by
      rw [Vehicle.turn_left_speed]; exact hws) (turn_left_outbound w))

/-- A north left-lane vehicle at its turn waypoint, used as witness input. -/
def vC10 : Vehicle := { Vehicle.init 0 north left 0 with y := -45, speed := 25 }

/-- Witness for C10: the concrete waypoint vehicle turns during its update
and thereafter never waits and never accrues waiting time. -/
theorem C10_witness :
    PostTurnState (vC10.update 2 true)
  ∧ ((vC10.update 2 true).update 3 true).waiting_time = (vC10.update 2 true).waiting_time := by
  have h1 : PostTurnState (vC10.update 2 true) :=
    (C10_post_turn vC10 2 true).2.1 (by decide) (by decide) (by decide) (by decide)
      (by decide) (by decide) (by decide) (by decide)
  exact ⟨h1, ((C10_post_turn (vC10.update 2 true) 3 true).2.2.2.2 h1).2⟩

/-! ### Claim C1 -/

lemma laneCount_add_vehicle (s : TrafficSimulation) (d' : Direction) (lt' : LaneType)
    (d : Direction) (lt : LaneType) :
    (s.add_vehicle d' lt').laneCount d lt
      = s.laneCount d lt + (if d' = d ∧ lt' = lt then 1 else 0) := by
  unfold TrafficSimulation.add_vehicle TrafficSimulation.laneCount
  rw [List.filter_append, List.length_append]
  congr 1
  by_cases hm : d' = d ∧ lt' = lt
  · obtain ⟨h1, h2⟩ := hm; subst h1; subst h2
    simp [Vehicle.init]
  · rw [if_neg hm]
    rcases not_and_or.mp hm with h | h <;> simp [Vehicle.init, h]

lemma spawnLane_laneCount_le (draws : SpawnOracle) (s : TrafficSimulation)
    (pr : Direction × LaneType) (d : Direction) (lt : LaneType) :
    (spawnLane draws s pr).laneCount d lt ≤ max (s.laneCount d lt) 4 := by
  unfold spawnLane
  split
  · split
    · rename_i hcnt
      rw [laneCount_add_vehicle]
      by_cases hm : pr.1 = d ∧ pr.2 = lt
      · rw [if_pos hm]
        obtain ⟨h1, h2⟩ := hm; subst h1; subst h2
        exact le_max_of_le_right (by omega)
      · rw [if_neg hm]; simp [le_max_left]
    · exact le_max_left _ _
  · exact le_max_left _ _

lemma spawn_fold_laneCount_le (draws : SpawnOracle) (lanes : List (Direction × LaneType))
    (d : Direction) (lt : LaneType) :
    ∀ s : TrafficSimulation,
      (List.foldl (spawnLane draws) s lanes).laneCount d lt
        ≤ max (s.laneCount d lt) 4 := by
  induction lanes with
  | nil => intro s; exact le_max_left _ _
  | cons a t ih =>
      intro s
      rw [List.foldl_cons]
      calc (List.foldl (spawnLane draws) (spawnLane draws s a) t).laneCount d lt
            ≤ max ((spawnLane draws s a).laneCount d lt) 4 := ih _
        _ ≤ max (max (s.laneCount d lt) 4) 4 :=
            max_le_max (spawnLane_laneCount_le draws s a d lt) le_rfl
        _ = max (s.laneCount d lt) 4 := by rw [max_assoc, max_self]

/-- C1 (amended): the spawn phase itself never drives a lane's active count
above 4 — immediately after the spawn phase the count is at most
`max (count before the spawn phase) 4`, so a lane at or below capacity stays
at or below capacity.  The unconditional ≤ 4 bound fails (see the
counterexample) because an executed left turn re-enters a vehicle into the
perpendicular direction's left lane. -/
theorem C1_spawn_capacity_amended (s : TrafficSimulation) (draws : SpawnOracle)
    (d : Direction) (lt : LaneType) :
    (s.afterSpawnPhase draws).laneCount d lt ≤ max (s.laneCount d lt) 4
  ∧ (s.laneCount d lt ≤ 4 → (s.afterSpawnPhase draws).laneCount d lt ≤ 4) := by
  have h : (s.afterSpawnPhase draws).laneCount d lt ≤ max (s.laneCount d lt) 4 :=
    spawn_fold_laneCount_le draws laneOrder d lt _
  exact ⟨h, fun h4 => le_trans h (max_le h4 le_rfl)⟩

/-- Witness for C1 (amended): with every draw successful, a fresh simulation
stays within capacity after its first spawn phase. -/
theorem C1_witness :
    (TrafficSimulation.init.afterSpawnPhase (fun _ _ => true)).laneCount north straight ≤ 4 :=
  (C1_spawn_capacity_amended TrafficSimulation.init (fun _ _ => true) north straight).2
    (by decide)

/-- Oracle under which no spawn draw succeeds. -/
def noDraw : SpawnOracle := fun _ _ => false

/-- Oracle under which only the west-left draw succeeds. -/
def oWL : SpawnOracle := fun d lt => decide (d = west ∧ lt = left)

/-- Oracle under which the north-left and west-left draws succeed. -/
def oNLWL : SpawnOracle := fun d lt =>
  decide ((d = west ∧ lt = left) ∨ (d = north ∧ lt = left))

/-- A 33-step schedule under constant phase 2 (NS-left green): step 1 spawns
one north-left and one west-left vehicle, steps 2–4 three more west-left
vehicles, and no draw succeeds afterwards.  The four west-left vehicles halt
against the red light while the north-left vehicle crosses the box and
executes its left turn during step 33, entering the west left lane. -/
def c1sched : List (ℤ × SpawnOracle) :=
  (2, oNLWL) :: (List.replicate 3 ((2 : ℤ), oWL) ++ List.replicate 29 ((2 : ℤ), noDraw))

/-- Counterexample to C1 as stated: immediately after the spawn phase of
step 34 of this concrete run, the west left lane holds five active
(non-passed, non-collided) vehicles, exceeding the configured capacity 4. -/
theorem C1_counterexample :
    ((TrafficSimulation.init.run c1sched).afterSpawnPhase noDraw).laneCount west left = 5
  ∧ ¬ (((TrafficSimulation.init.run c1sched).afterSpawnPhase noDraw).laneCount west left
        ≤ 4) := by
  have h : ((TrafficSimulation.init.run c1sched).afterSpawnPhase noDraw).laneCount west left
      = 5 := by decide
  exact ⟨h, by omega⟩

/-! ### Claim C6 -/

/-- Well-formed id bookkeeping: every stored vehicle id is below the id
counter, and stored ids strictly increase along the map's insertion order
(ids are assigned from a monotone counter and never reused). -/
def IdsOK (s : TrafficSimulation) : Prop :=
  (∀ v ∈ s.vehicles, v.id < s.next_vehicle_id)
  ∧ (s.vehicles.map Vehicle.id).Pairwise (· < ·)

lemma spawnLane_spec (draws : SpawnOracle) (s : TrafficSimulation)
    (pr : Direction × LaneType) :
    ∃ t : List Vehicle,
      (spawnLane draws s pr).vehicles = s.vehicles ++ t
    ∧ (∀ v ∈ t, v.passed = false ∧ s.next_vehicle_id ≤ v.id
        ∧ v.id < (spawnLane draws s pr).next_vehicle_id)
    ∧ s.next_vehicle_id ≤ (spawnLane draws s pr).next_vehicle_id
    ∧ (t.map Vehicle.id).Pairwise (· < ·) := by
  unfold spawnLane
  split
  · split
    · refine ⟨[Vehicle.init s.next_vehicle_id pr.1 pr.2 s.current_step], rfl, ?_,
        Nat.le_succ _, by simp⟩
      intro v hv
      rw [List.mem_singleton] at hv
      subst hv
      exact ⟨rfl, le_refl _, Nat.lt_succ_self _⟩
    · exact ⟨[], by simp, by simp, le_refl _, by simp⟩
  · exact ⟨[], by simp, by simp, le_refl _, by simp⟩

lemma spawn_fold_spec (draws : SpawnOracle) (lanes : List (Direction × LaneType)) :
    ∀ s : TrafficSimulation,
      ∃ t : List Vehicle,
        (List.foldl (spawnLane draws) s lanes).vehicles = s.vehicles ++ t
      ∧ (∀ v ∈ t, v.passed = false ∧ s.next_vehicle_id ≤ v.id
          ∧ v.id < (List.foldl (spawnLane draws) s lanes).next_vehicle_id)
      ∧ s.next_vehicle_id ≤ (List.foldl (spawnLane draws) s lanes).next_vehicle_id
      ∧ (t.map Vehicle.id).Pairwise (· < ·) := by
  induction lanes with
  | nil => intro s; exact ⟨[], by simp, by simp, le_refl _, by simp⟩
  | cons a lanes ih =>
      intro s
      obtain ⟨t1, h1, h2, h3, h4⟩ := spawnLane_spec draws s a
      obtain ⟨t2, g1, g2, g3, g4⟩ := ih (spawnLane draws s a)
      rw [List.foldl_cons]
      refine ⟨t1 ++ t2, by rw [g1, h1, List.append_assoc], ?_, le_trans h3 g3, ?_⟩
      · intro v hv
        rcases List.mem_append.mp hv with hv | hv
        · obtain ⟨a1, a2, a3⟩ := h2 v hv
          exact ⟨a1, a2, lt_of_lt_of_le a3 g3⟩
        · obtain ⟨b1, b2, b3⟩ := g2 v hv
          exact ⟨b1, le_trans h3 b2, b3⟩
      · rw [List.map_append]
        refine List.pairwise_append.mpr ⟨h4, g4, ?_⟩
        intro i hi j hj
        obtain ⟨v1, hv1, rfl⟩ := List.mem_map.mp hi
        obtain ⟨v2, hv2, rfl⟩ := List.mem_map.mp hj
        exact lt_of_lt_of_le (h2 v1 hv1).2.2 (g2 v2 hv2).2.1

lemma afterSpawnPhase_spec (s : TrafficSimulation) (draws : SpawnOracle) :
    ∃ t : List Vehicle,
      (s.afterSpawnPhase draws).vehicles = s.vehicles ++ t
    ∧ (∀ v ∈ t, v.passed = false ∧ s.next_vehicle_id ≤ v.id
        ∧ v.id < (s.afterSpawnPhase draws).next_vehicle_id)
    ∧ s.next_vehicle_id ≤ (s.afterSpawnPhase draws).next_vehicle_id
    ∧ (t.map Vehicle.id).Pairwise (· < ·) :=
  spawn_fold_spec draws laneOrder { s with current_step := s.current_step + 1 }

lemma IdsOK_afterSpawnPhase (s : TrafficSimulation) (draws : SpawnOracle)
    (h : IdsOK s) : IdsOK (s.afterSpawnPhase draws) := by
  obtain ⟨t, hveh, hprops, hle, hpw⟩ := afterSpawnPhase_spec s draws
  constructor
  · intro v hv
    rw [hveh] at hv
    rcases List.mem_append.mp hv with hv | hv
    · exact lt_of_lt_of_le (h.1 v hv) hle
    · exact (hprops v hv).2.2
  · rw [hveh, List.map_append]
    refine List.pairwise_append.mpr ⟨h.2, hpw, ?_⟩
    intro i hi j hj
    obtain ⟨v1, hv1, rfl⟩ := List.mem_map.mp hi
    obtain ⟨v2, hv2, rfl⟩ := List.mem_map.mp hj
    exact lt_of_lt_of_le (h.1 v1 hv1) (hprops v2 hv2).2.1

lemma step_vehicles_eq (s : TrafficSimulation) (phase : ℤ) (draws : SpawnOracle) :
    (s.step phase draws).vehicles
      = ((s.afterSpawnPhase draws).vehicles.map (fun v => v.update phase true)).filter
          (fun v => !v.passed) := rfl

lemma step_next_eq (s : TrafficSimulation) (phase : ℤ) (draws : SpawnOracle) :
    (s.step phase draws).next_vehicle_id = (s.afterSpawnPhase draws).next_vehicle_id := rfl

lemma spawnLane_total (draws : SpawnOracle) (s : TrafficSimulation)
    (pr : Direction × LaneType) :
    (spawnLane draws s pr).total_passed_vehicles = s.total_passed_vehicles := by
  unfold spawnLane TrafficSimulation.add_vehicle
  split
  · split <;> rfl
  · rfl

lemma spawn_fold_total (draws : SpawnOracle) (lanes : List (Direction × LaneType)) :
    ∀ s : TrafficSimulation,
      (List.foldl (spawnLane draws) s lanes).total_passed_vehicles
        = s.total_passed_vehicles := by
  induction lanes with
  | nil => intro s; rfl
  | cons a t ih => intro s; rw [List.foldl_cons, ih, spawnLane_total]

lemma afterSpawnPhase_total (s : TrafficSimulation) (draws : SpawnOracle) :
    (s.afterSpawnPhase draws).total_passed_vehicles = s.total_passed_vehicles :=
  spawn_fold_total draws laneOrder _

lemma step_total_eq (s : TrafficSimulation) (phase : ℤ) (draws : SpawnOracle) :
    (s.step phase draws).total_passed_vehicles
      = s.total_passed_vehicles + s.passedDuringStep phase draws := by
  have h : (s.step phase draws).total_passed_vehicles
      = (s.afterSpawnPhase draws).total_passed_vehicles
        + s.passedDuringStep phase draws := rfl
  rw [h, afterSpawnPhase_total]

lemma mem_step_vehicles (s : TrafficSimulation) (phase : ℤ) (draws : SpawnOracle)
    {v : Vehicle} (hv : v ∈ (s.step phase draws).vehicles) :
    ∃ w ∈ (s.afterSpawnPhase draws).vehicles,
      v = w.update phase true ∧ v.passed = false := by
  rw [step_vehicles_eq] at hv
  obtain ⟨hv1, hv2⟩ := List.mem_filter.mp hv
  obtain ⟨w, hw, rfl⟩ := List.mem_map.mp hv1
  exact ⟨w, hw, rfl, by simpa using hv2⟩

lemma step_absent (s : TrafficSimulation) (phase : ℤ) (draws : SpawnOracle) (i : ℕ)
    (h1 : i ∉ s.vehicles.map Vehicle.id) (h2 : i < s.next_vehicle_id) :
    i ∉ (s.step phase draws).vehicles.map Vehicle.id := by
  intro hmem
  obtain ⟨v, hv, hvid⟩ := List.mem_map.mp hmem
  obtain ⟨w, hw, hveq, _⟩ := mem_step_vehicles s phase draws hv
  have hwid : w.id = i := by rw [← hvid, hveq, Vehicle.update_id]
  obtain ⟨t, hveh, hprops, hle, _⟩ := afterSpawnPhase_spec s draws
  rw [hveh] at hw
  rcases List.mem_append.mp hw with hw | hw
  · exact h1 (List.mem_map.mpr ⟨w, hw, hwid⟩)
  · have hge := (hprops w hw).2.1
    omega

lemma step_next_ge (s : TrafficSimulation) (phase : ℤ) (draws : SpawnOracle) :
    s.next_vehicle_id ≤ (s.step phase draws).next_vehicle_id := by
  rw [step_next_eq]
  obtain ⟨t, _, _, hle, _⟩ := afterSpawnPhase_spec s draws
  exact hle

lemma run_absent (future : List (ℤ × SpawnOracle)) :
    ∀ (s : TrafficSimulation) (i : ℕ), i ∉ s.vehicles.map Vehicle.id →
      i < s.next_vehicle_id → i ∉ (s.run future).vehicles.map Vehicle.id := by
  induction future with
  | nil => intro s i h1 _; exact h1
  | cons a rest ih =>
      intro s i h1 h2
      have hrw : s.run (a :: rest) = (s.step a.1 a.2).run rest := rfl
      rw [hrw]
      exact ih _ i (step_absent s a.1 a.2 i h1 h2)
        (lt_of_lt_of_le h2 (step_next_ge s a.1 a.2))

lemma IdsOK_step (s : TrafficSimulation) (phase : ℤ) (draws : SpawnOracle)
    (h : IdsOK s) : IdsOK (s.step phase draws) := by
  have hsp := IdsOK_afterSpawnPhase s draws h
  constructor
  · intro v hv
    obtain ⟨w, hw, hveq, _⟩ := mem_step_vehicles s phase draws hv
    rw [step_next_eq, hveq, Vehicle.update_id]
    exact hsp.1 w hw
  · have hmapmap :
        ((s.afterSpawnPhase draws).vehicles.map (fun v => v.update phase true)).map Vehicle.id
          = (s.afterSpawnPhase draws).vehicles.map Vehicle.id := by
      rw [List.map_map]
      exact List.map_congr_left (fun v _ => Vehicle.update_id v phase true)
    rw [step_vehicles_eq]
    have hsub :
        List.Sublist
          ((((s.afterSpawnPhase draws).vehicles.map (fun v => v.update phase true)).filter
              (fun v => !v.passed)).map Vehicle.id)
          ((((s.afterSpawnPhase draws).vehicles.map
              (fun v => v.update phase true)).map Vehicle.id)) :=
      (List.filter_sublist _).map Vehicle.id
    rw [hmapmap] at hsub
    exact List.Pairwise.sublist hsub hsp.2

/-- Two distinct stored vehicles have distinct ids when the id list is
strictly increasing. -/
lemma vehicles_id_ne (l : List Vehicle) (h : (l.map Vehicle.id).Pairwise (· < ·))
    {v w : Vehicle} (hv : v ∈ l) (hw : w ∈ l) (hne : v ≠ w) : v.id ≠ w.id := by
  have hpw : l.Pairwise (fun a b => a.id ≠ b.id) :=
    (List.pairwise_map.mp h).imp (fun hlt => Nat.ne_of_lt hlt)
  have hsymm : Symmetric (fun a b : Vehicle => a.id ≠ b.id) := fun a b hab => hab.symm
  exact List.Pairwise.forall hsymm hpw hv hw hne

lemma step_removed_absent (s : TrafficSimulation) (phase : ℤ) (draws : SpawnOracle)
    {w : Vehicle} (hOK : IdsOK (s.afterSpawnPhase draws))
    (hw : w ∈ (s.afterSpawnPhase draws).vehicles)
    (hpass : (w.update phase true).passed = true) :
    w.id ∉ (s.step phase draws).vehicles.map Vehicle.id := by
  intro hmem
  obtain ⟨z, hz, hzid⟩ := List.mem_map.mp hmem
  obtain ⟨w', hw', hzeq, hzp⟩ := mem_step_vehicles s phase draws hz
  have hww' : w' ≠ w := by
    intro he
    rw [hzeq, he] at hzp
    rw [hpass] at hzp
    exact Bool.true_eq_false.mp hzp
  have hid : w'.id = w.id := by rw [← hzid, hzeq, Vehicle.update_id]
  exact vehicles_id_ne _ hOK.2 hw' hw hww' hid

/-- C6: in a step from a well-formed state (no passed vehicle stored, id
bookkeeping sound), every vehicle whose `passed` flag becomes true during
the step is removed before the step returns and its id never reappears in
any later step; the step adds exactly the number of such vehicles to
`total_passed_vehicles`, which never decreases; well-formedness is
preserved. -/
theorem C6_passed_removed (s : TrafficSimulation) (phase : ℤ) (draws : SpawnOracle)
    (future : List (ℤ × SpawnOracle))
    (hp : ∀ v ∈ s.vehicles, v.passed = false) (hi : IdsOK s) :
    (∀ w ∈ (s.afterSpawnPhase draws).vehicles, w.passed = false)
  ∧ (∀ v ∈ (s.step phase draws).vehicles, v.passed = false)
  ∧ (s.step phase draws).total_passed_vehicles
      = s.total_passed_vehicles + s.passedDuringStep phase draws
  ∧ s.total_passed_vehicles ≤ (s.step phase draws).total_passed_vehicles
  ∧ IdsOK (s.step phase draws)
  ∧ (∀ w ∈ (s.afterSpawnPhase draws).vehicles,
      (w.update phase true).passed = true →
        w.id ∉ (s.step phase draws).vehicles.map Vehicle.id
      ∧ w.id ∉ ((s.step phase draws).run future).vehicles.map Vehicle.id) := by
  have hOK := IdsOK_afterSpawnPhase s draws hi
  refine ⟨?_, ?_, step_total_eq s phase draws, ?_, IdsOK_step s phase draws hi, ?_⟩
  · intro w hw
    obtain ⟨t, hveh, hprops, _, _⟩ := afterSpawnPhase_spec s draws
    rw [hveh] at hw
    rcases List.mem_append.mp hw with hw | hw
    · exact hp w hw
    · exact (hprops w hw).1
  · intro v hv
    obtain ⟨w, hw, heq, hpf⟩ := mem_step_vehicles s phase draws hv
    exact hpf
  · rw [step_total_eq]; exact Nat.le_add_right _ _
  · intro w hw hpass
    have habs := step_removed_absent s phase draws hOK hw hpass
    have hwid : w.id < (s.step phase draws).next_vehicle_id := by
      rw [step_next_eq]; exact hOK.1 w hw
    exact ⟨habs, run_absent future _ w.id habs hwid⟩

/-- The hypotheses of the C6 theorem hold in every reachable state: the map
never stores a passed vehicle and the id bookkeeping stays sound. -/
lemma reachable_wf (s : TrafficSimulation) (h : Reachable s) :
    (∀ v ∈ s.vehicles, v.passed = false) ∧ IdsOK s := by
  induction h with
  | init =>
      exact ⟨by intro v hv; simp [TrafficSimulation.init] at hv,
        by intro v hv; simp [TrafficSimulation.init] at hv,
        by simp [TrafficSimulation.init]⟩
  | step s phase draws hr ih =>
      refine ⟨?_, IdsOK_step s phase draws ih.2⟩
      intro v hv
      obtain ⟨w, hw, heq, hpf⟩ := mem_step_vehicles s phase draws hv
      exact hpf
  | reset s hr ih =>
      exact ⟨by intro v hv; simp [TrafficSimulation.reset] at hv,
        by intro v hv; simp [TrafficSimulation.reset] at hv,
        by simp [TrafficSimulation.reset]⟩

/-- Witness for C6 at the freshly constructed simulation, all draws
successful. -/
theorem C6_witness :
    (TrafficSimulation.init.step 0 (fun _ _ => true)).total_passed_vehicles
      = TrafficSimulation.init.total_passed_vehicles
        + TrafficSimulation.init.passedDuringStep 0 (fun _ _ => true) :=
  (C6_passed_removed TrafficSimulation.init 0 (fun _ _ => true) []
    (by simp [TrafficSimulation.init])
    ⟨by simp [TrafficSimulation.init], by simp [TrafficSimulation.init]⟩).2.2.1

end NewEnv
